import Mathlib

/-!
Shallow embedding of the MMU fast paths (`src/riscv/mmu.h`) and the bus
dispatch (`src/riscv/devices.cc`) of this RISC-V simulator fork.

Modelling conventions:
* `reg_t` (uint64) values are `Nat`; wherever 64-bit wrap-around matters the
  embedding applies `% 2 ^ 64` explicitly.
* Host pointers into the simulator's physical-memory array are modelled as
  physical addresses (`Nat`); the cached TLB base pointer `tlb_data[slot]` is
  the base offset such that `tlb_data[slot] + addr` is the physical address of
  virtual address `addr`, and `sim->mem_to_addr` is therefore the identity.
* Memory is a byte function `Nat → Nat`; multi-byte accesses are little-endian
  (the simulator reads through `*(type_t*)ptr` casts on a little-endian host).
* C++ exceptions become `Except Trap`; mutations performed before a throw
  survive it, so every operation returns `Except Trap α × mmu_state`.
* The slow paths (`load_slow_path`, `store_slow_path`, `fetch_slow_path`) live
  in `mmu.cc`, which is not part of the sources; they are kept as parameters,
  so theorems hold for every possible implementation of them.
-/

namespace Spike

/-- `access_type` from the source (FETCH / LOAD / STORE). -/
inductive AccessType where
  | fetch
  | load
  | store
deriving DecidableEq

/-- `trigger_operation_t` (OPERATION_EXECUTE / OPERATION_STORE / OPERATION_LOAD). -/
inductive TriggerOp where
  | opExecute
  | opStore
  | opLoad
deriving DecidableEq

/-- `trigger_matched_t` (mmu.h:36-47): value describing a matched debug trigger. -/
structure trigger_matched_t where
  index : Int
  operation : TriggerOp
  address : Nat
  data : Nat
deriving DecidableEq

/-- The traps thrown by the code under `src/` (from trap.h, used in mmu.h). -/
inductive Trap where
  | trap_load_address_misaligned (badaddr : Nat)
  | trap_store_address_misaligned (badaddr : Nat)
  | trap_load_access_fault (badaddr : Nat)
  | trap_store_access_fault (badaddr : Nat)
  | trap_instruction_access_fault (badaddr : Nat)
  | trigger_matched (t : trigger_matched_t)
deriving DecidableEq

/-- `PGSHIFT` (mmu.h:20). -/
def PGSHIFT : Nat := 12

/-- `TLB_ENTRIES` (mmu.h:249). -/
def TLB_ENTRIES : Nat := 256

/-- `TLB_CHECK_TRIGGERS = reg_t(1) << 63` (mmu.h:252). -/
def TLB_CHECK_TRIGGERS : Nat := 2 ^ 63

/-- `ICACHE_ENTRIES` (mmu.h:171). -/
def ICACHE_ENTRIES : Nat := 1024

/-- Modelled from the spec: `PC_ALIGN` comes from decode.h, which is not under
`src/`; §4.3 indexes the icache by `pc / instruction_alignment`, the
compressed-instruction alignment of 2 bytes. -/
def PC_ALIGN : Nat := 2

/-- Little-endian read of `w` bytes of `mem` starting at physical address `p`
(the effect of `*(type_t*)ptr` on a little-endian host). -/
def readBytes (mem : Nat → Nat) (p : Nat) : Nat → Nat
  | 0 => 0
  | n + 1 => mem p % 256 + 256 * readBytes mem (p + 1) n

/-- Little-endian write of the low `w` bytes of `v` at physical address `p`. -/
def writeBytes (mem : Nat → Nat) (p w v : Nat) : Nat → Nat :=
  fun a => if p ≤ a ∧ a < p + w then v / 256 ^ (a - p) % 256 else mem a

/-- Sign-extension of a `bits`-wide value into a 64-bit register
(the effect of a C cast through a signed type into `reg_t`/`insn_bits_t`). -/
def sext64 (bits v : Nat) : Nat :=
  if v % 2 ^ bits < 2 ^ (bits - 1) then v % 2 ^ bits
  else v % 2 ^ bits + (2 ^ 64 - 2 ^ bits)

/-- Privilege levels (encoding.h values referenced by mmu.h). -/
def PRV_S : Nat := 1
/-- Machine privilege level. -/
def PRV_M : Nat := 3
/-- `mstatus.VM` values for the priv-1.9 translation modes used in mmu.h. -/
def VM_MBARE : Nat := 0
/-- Sv32 translation mode selector. -/
def VM_SV32 : Nat := 8
/-- Sv39 translation mode selector. -/
def VM_SV39 : Nat := 9
/-- Sv48 translation mode selector. -/
def VM_SV48 : Nat := 10
/-- PTE permission bits (encoding.h values referenced by mmu.h). -/
def PTE_V : Nat := 0x001
/-- PTE readable bit. -/
def PTE_R : Nat := 0x002
/-- PTE writable bit. -/
def PTE_W : Nat := 0x004
/-- PTE executable bit. -/
def PTE_X : Nat := 0x008
/-- PTE user-accessible bit. -/
def PTE_U : Nat := 0x010
/-- PTE dirty bit. -/
def PTE_D : Nat := 0x080

/-- `tlb_t` (mmu.h:50-71): the per-page permission records consulted by
`check_permission`.  `meta` is the `meta` array, `tag_map` maps a masked VPN
tag to the index of its record. -/
structure tlb_t where
  meta : Nat → Nat
  tag_map : Nat → Option Nat

/-- The processor state read by mmu.h.  The `mstatus` fields are stored
already extracted (they are read through `get_field(mstatus, MSTATUS_*)`):
`mprv`, `mpp`, `vm`, `pum`, `mxr` model `MSTATUS_MPRV/MPP/VM/PUM/MXR`. -/
structure processor_t where
  trigger_match : TriggerOp → Nat → Nat → Int
  mcontrol_timing : Nat → Nat
  decode_insn : Nat → Nat
  timestamp : Nat
  prv : Nat
  dcsr_cause : Nat
  mprv : Bool
  mpp : Nat
  vm : Nat
  pum : Bool
  mxr : Bool

/-- `insn_fetch_t`+`icache_entry_t` (mmu.h:24-34): the decoded-handle field
`func` keeps `proc->decode_insn insn` as an abstract `Nat` handle. -/
structure icache_entry_t where
  tag : Nat
  func : Nat
  insn : Nat
deriving DecidableEq

/-- A time-warp store record `trace_t` (mmu.h:372-378). -/
structure trace_t where
  len : Nat
  addr : Nat
  data : Nat
deriving DecidableEq

/-- The mutable state of `mmu_t` reachable from the fast paths.
`tracer_interested`/`trace_log` model the external `memtracer_list_t`:
`tracer_interested lo hi` is `tracer.interested_in_range(lo, hi, FETCH)` and
`tracer.trace(paddr, len, FETCH)` appends `(paddr, len)` to `trace_log`. -/
structure mmu_state where
  tlb_data : Nat → Nat
  tlb_insn_tag : Nat → Nat
  tlb_load_tag : Nat → Nat
  tlb_store_tag : Nat → Nat
  icache : Nat → icache_entry_t
  matched_trigger : Option trigger_matched_t
  timewarp : Bool
  itlb : tlb_t
  dtlb : tlb_t
  mem : Nat → Nat
  traces : List trace_t
  trace_clks : List Nat
  tracer_interested : Nat → Nat → Bool
  trace_log : List (Nat × Nat)

/-- The slow paths live in mmu.cc (not under `src/`); the embedding is
parametric in them, so every theorem holds for all implementations.
`load_slow_path st addr len` yields the loaded value, `fetch_slow_path`
yields the physical address of the fetched halfword. -/
structure SlowPaths where
  load_slow_path : mmu_state → Nat → Nat → Except Trap Nat × mmu_state
  store_slow_path : mmu_state → Nat → Nat → Nat → Except Trap Unit × mmu_state
  fetch_slow_path : mmu_state → Nat → Except Trap Nat × mmu_state

/-- `check_permission` (mmu.h:271-329).  Its body *begins* with an
unconditional `return;` (line 272), so the function returns immediately for
every input: the permission logic that textually follows (embedded separately
as `check_permission_body`) is unreachable. -/
def check_permission (_p : processor_t) (_itlb _dtlb : tlb_t)
    (_vaddr : Nat) (_type : AccessType) : Except Trap Unit :=
  Except.ok ()

/-- The code of `check_permission` *after* the early `return;` (mmu.h:273-328),
embedded on its own to compare the reachable behaviour with the written-down
permission logic.  Note the `switch` on the VM mode (mmu.h:287-291) has no
`break`s: each case falls through and applies all later masks as well. -/
def check_permission_body (p : processor_t) (itlb dtlb : tlb_t)
    (vaddr : Nat) (type : AccessType) : Except Trap Unit :=
  let mode0 := p.prv
  let mode1 := if type ≠ AccessType.fetch ∧ p.dcsr_cause = 0 ∧ p.mprv then p.mpp else mode0
  let mode := if p.vm = VM_MBARE then PRV_M else mode1
  if mode = PRV_M then Except.ok ()
  else
    let supervisor := mode = PRV_S
    let tlb := if type = AccessType.fetch then itlb else dtlb
    let tag0 := vaddr >>> PGSHIFT
    let tag :=
      if p.vm = VM_SV32 then tag0 % 2 ^ 20 % 2 ^ 27 % 2 ^ 36
      else if p.vm = VM_SV39 then tag0 % 2 ^ 27 % 2 ^ 36
      else if p.vm = VM_SV48 then tag0 % 2 ^ 36
      else tag0
    match tlb.tag_map tag with
    | none => Except.ok ()
    | some idx =>
      let meta := tlb.meta idx
      let no_priv := if meta &&& PTE_U ≠ 0 then supervisor ∧ p.pum else ¬supervisor
      let no_valid := meta &&& PTE_V = 0 ∨ (meta &&& PTE_R = 0 ∧ meta &&& PTE_W ≠ 0)
      match type with
      | AccessType.fetch =>
        if no_priv ∨ no_valid ∨ meta &&& PTE_X = 0 then
          Except.error (Trap.trap_instruction_access_fault vaddr)
        else Except.ok ()
      | AccessType.load =>
        if no_priv ∨ no_valid ∨ (meta &&& PTE_R = 0 ∧ ¬(p.mxr ∧ meta &&& PTE_X ≠ 0)) then
          Except.error (Trap.trap_load_access_fault vaddr)
        else Except.ok ()
      | AccessType.store =>
        if ¬no_priv ∧ ¬no_valid ∧ meta &&& PTE_W ≠ 0 ∧ meta &&& PTE_D = 0 then
          Except.ok ()
        else if no_priv ∨ no_valid ∨ ¬(meta &&& PTE_R ≠ 0 ∧ meta &&& PTE_W ≠ 0) then
          Except.error (Trap.trap_store_access_fault vaddr)
        else Except.ok ()

/-- `trigger_exception` (mmu.h:347-360).  `Except.error` is the immediate
`throw` (timing "before"); `Except.ok (some t)` is the heap-constructed
object returned for the caller; `Except.ok none` is `NULL`. -/
def trigger_exception (proc : Option processor_t) (operation : TriggerOp)
    (address data : Nat) : Except trigger_matched_t (Option trigger_matched_t) :=
  match proc with
  | none => Except.ok none
  | some p =>
    let m := p.trigger_match operation address data
    if m = -1 then Except.ok none
    else if p.mcontrol_timing m.toNat = 0 then
      Except.error ⟨m, operation, address, data⟩
    else Except.ok (some ⟨m, operation, address, data⟩)

/-- Modelled from the spec: `record` is defined in mmu.cc, which is not under
`src/`.  Per §4.5 it appends `{len, physical address, pre-write value}` keyed
by the current logical timestamp. -/
def record (p : processor_t) (st : mmu_state) (len addr data : Nat) : mmu_state :=
  { st with
    traces := st.traces ++ [⟨len, addr, data⟩]
    trace_clks := st.trace_clks ++ [p.timestamp] }

/-- The value of a `type##_t` fast-path read as converted to a register:
signed variants sign-extend the raw little-endian bytes. -/
def loadValue (sgn : Bool) (w raw : Nat) : Nat :=
  if sgn then sext64 (8 * w) raw else raw

/-- The `load_func(type)` template (mmu.h:84-104), for a `type##_t` of `w`
bytes; `sgn` distinguishes the `int##` instances from the `uint##` ones. -/
def load_func (sp : SlowPaths) (p : processor_t) (sgn : Bool) (w : Nat)
    (st : mmu_state) (addr : Nat) : Except Trap Nat × mmu_state :=
  if addr &&& (w - 1) ≠ 0 then
    (Except.error (Trap.trap_load_address_misaligned addr), st)
  else
    let vpn := addr >>> PGSHIFT
    match (if st.timewarp then check_permission p st.itlb st.dtlb addr AccessType.load
           else Except.ok ()) with
    | Except.error t => (Except.error t, st)
    | Except.ok _ =>
      if st.tlb_load_tag (vpn % TLB_ENTRIES) = vpn then
        (Except.ok (loadValue sgn w (readBytes st.mem (st.tlb_data (vpn % TLB_ENTRIES) + addr) w)), st)
      else if st.tlb_load_tag (vpn % TLB_ENTRIES) = vpn ||| TLB_CHECK_TRIGGERS then
        let data := loadValue sgn w (readBytes st.mem (st.tlb_data (vpn % TLB_ENTRIES) + addr) w)
        match st.matched_trigger with
        | some _ => (Except.ok data, st)
        | none =>
          match trigger_exception (some p) TriggerOp.opLoad addr data with
          | Except.error t => (Except.error (Trap.trigger_matched t), st)
          | Except.ok none => (Except.ok data, st)
          | Except.ok (some t) =>
            (Except.error (Trap.trigger_matched t), { st with matched_trigger := some t })
      else
        sp.load_slow_path st addr w

/-- The raw-write step shared by both hit branches of `store_func`
(mmu.h:126-129 and 136-139): in time-warp mode `record` captures the
pre-write bytes, then the new value is written. -/
def store_commit (p : processor_t) (w : Nat) (st : mmu_state)
    (addr val : Nat) : mmu_state :=
  let vpn := addr >>> PGSHIFT
  let pa := st.tlb_data (vpn % TLB_ENTRIES) + addr
  let st1 := if st.timewarp then record p st w pa (readBytes st.mem pa w) else st
  { st1 with mem := writeBytes st1.mem pa w val }

/-- The `store_func(type)` template (mmu.h:119-143), for a `type##_t` of `w`
bytes. -/
def store_func (sp : SlowPaths) (p : processor_t) (w : Nat)
    (st : mmu_state) (addr val : Nat) : Except Trap Unit × mmu_state :=
  if addr &&& (w - 1) ≠ 0 then
    (Except.error (Trap.trap_store_address_misaligned addr), st)
  else
    let vpn := addr >>> PGSHIFT
    match (if st.timewarp then check_permission p st.itlb st.dtlb addr AccessType.store
           else Except.ok ()) with
    | Except.error t => (Except.error t, st)
    | Except.ok _ =>
      if st.tlb_store_tag (vpn % TLB_ENTRIES) = vpn then
        (Except.ok (), store_commit p w st addr val)
      else if st.tlb_store_tag (vpn % TLB_ENTRIES) = vpn ||| TLB_CHECK_TRIGGERS then
        match st.matched_trigger with
        | some _ => (Except.ok (), store_commit p w st addr val)
        | none =>
          match trigger_exception (some p) TriggerOp.opStore addr val with
          | Except.error t => (Except.error (Trap.trigger_matched t), st)
          | Except.ok none => (Except.ok (), store_commit p w st addr val)
          | Except.ok (some t) =>
            (Except.error (Trap.trigger_matched t), { st with matched_trigger := some t })
      else
        sp.store_slow_path st addr w val

/-- The catch clause of the `amo_func(type)` template (mmu.h:155-158): a
`trap_load_access_fault` escaping the load/store body is re-thrown as
`trap_store_access_fault` with the same faulting address. -/
def amo_catch (r : Except Trap Nat × mmu_state) : Except Trap Nat × mmu_state :=
  match r with
  | (Except.error (Trap.trap_load_access_fault b), st2) =>
    (Except.error (Trap.trap_store_access_fault b), st2)
  | r => r

/-- The try-block of `amo_func`: the embedded load, then the store of
`f lhs`, returning the loaded value. -/
def amo_body (sp : SlowPaths) (p : processor_t) (w : Nat)
    (st : mmu_state) (addr : Nat) (f : Nat → Nat) : Except Trap Nat × mmu_state :=
  match load_func sp p false w st addr with
  | (Except.error t, st1) => (Except.error t, st1)
  | (Except.ok lhs, st1) =>
    match store_func sp p w st1 addr (f lhs) with
    | (Except.error t, st2) => (Except.error t, st2)
    | (Except.ok _, st2) => (Except.ok lhs, st2)

/-- The `amo_func(type)` template (mmu.h:146-159): alignment is checked with
the *store*-misaligned trap, then the try-block runs under the catch. -/
def amo_func (sp : SlowPaths) (p : processor_t) (w : Nat)
    (st : mmu_state) (addr : Nat) (f : Nat → Nat) : Except Trap Nat × mmu_state :=
  if addr &&& (w - 1) ≠ 0 then
    (Except.error (Trap.trap_store_address_misaligned addr), st)
  else
    amo_catch (amo_body sp p w st addr f)

/-- `translate_insn_addr` (mmu.h:332-345): the ITLB lookup for one halfword;
returns the physical address of the halfword.  Note that unlike the load and
store paths, the trigger-tag branch consults `proc->trigger_match` directly,
with no `matched_trigger` guard, and throws on any match. -/
def translate_insn_addr (sp : SlowPaths) (p : processor_t)
    (st : mmu_state) (addr : Nat) : Except Trap Nat × mmu_state :=
  let vpn := addr >>> PGSHIFT
  match (if st.timewarp then check_permission p st.itlb st.dtlb addr AccessType.fetch
         else Except.ok ()) with
  | Except.error t => (Except.error t, st)
  | Except.ok _ =>
    if st.tlb_insn_tag (vpn % TLB_ENTRIES) = vpn then
      (Except.ok (st.tlb_data (vpn % TLB_ENTRIES) + addr), st)
    else if st.tlb_insn_tag (vpn % TLB_ENTRIES) = vpn ||| TLB_CHECK_TRIGGERS then
      let ptr := st.tlb_data (vpn % TLB_ENTRIES) + addr
      let data := readBytes st.mem ptr 2
      let m := p.trigger_match TriggerOp.opExecute addr data
      if 0 ≤ m then
        (Except.error (Trap.trigger_matched ⟨m, TriggerOp.opExecute, addr, data⟩), st)
      else (Except.ok ptr, st)
    else
      sp.fetch_slow_path st addr

/-- Modelled from the spec: `insn_length` comes from decode.h, which is not
under `src/`.  §4.3 specifies the encoded length (2, 4, 6 or 8 bytes) decoded
from the low bits of the first halfword; this is the standard RISC-V rule the
code refers to. -/
def insn_length (x : Nat) : Nat :=
  if x &&& 0x3 < 0x3 then 2
  else if x &&& 0x1f < 0x1f then 4
  else if x &&& 0x3f < 0x3f then 6
  else 8

/-- `icache_index` (mmu.h:173-176). -/
def icache_index (addr : Nat) : Nat :=
  addr / PC_ALIGN % ICACHE_ENTRIES

/-- `refill_icache` (mmu.h:178-208): fetch the halfwords of the instruction at
`addr` through the ITLB, assemble the instruction bits, build the entry with
`tag = addr`, then — if the tracer is interested in the *first* halfword's
physical location — overwrite the tag with the invalid sentinel `-1`
(`2 ^ 64 - 1` as a `reg_t`) and emit a trace event.  The assembled entry is
returned; `access_icache` writes it into the cache array. -/
def refill_icache (sp : SlowPaths) (p : processor_t) (st : mmu_state)
    (addr : Nat) : Except Trap icache_entry_t × mmu_state :=
  match translate_insn_addr sp p st addr with
  | (Except.error t, st1) => (Except.error t, st1)
  | (Except.ok iaddr, st1) =>
    let insn0 := readBytes st1.mem iaddr 2
    let length := insn_length insn0
    let assembled : Except Trap Nat × mmu_state :=
      if length = 4 then
        match translate_insn_addr sp p st1 (addr + 2) with
        | (Except.error t, st2) => (Except.error t, st2)
        | (Except.ok a2, st2) =>
          (Except.ok (insn0 ||| sext64 16 (readBytes st2.mem a2 2) * 2 ^ 16 % 2 ^ 64), st2)
      else if length = 2 then
        (Except.ok (sext64 16 insn0), st1)
      else if length = 6 then
        match translate_insn_addr sp p st1 (addr + 4) with
        | (Except.error t, st2) => (Except.error t, st2)
        | (Except.ok a4, st2) =>
          match translate_insn_addr sp p st2 (addr + 2) with
          | (Except.error t, st3) => (Except.error t, st3)
          | (Except.ok a2, st3) =>
            (Except.ok ((insn0 ||| sext64 16 (readBytes st2.mem a4 2) * 2 ^ 32 % 2 ^ 64)
              ||| readBytes st3.mem a2 2 * 2 ^ 16 % 2 ^ 64), st3)
      else
        match translate_insn_addr sp p st1 (addr + 6) with
        | (Except.error t, st2) => (Except.error t, st2)
        | (Except.ok a6, st2) =>
          match translate_insn_addr sp p st2 (addr + 4) with
          | (Except.error t, st3) => (Except.error t, st3)
          | (Except.ok a4, st3) =>
            match translate_insn_addr sp p st3 (addr + 2) with
            | (Except.error t, st4) => (Except.error t, st4)
            | (Except.ok a2, st4) =>
              (Except.ok (((insn0 ||| sext64 16 (readBytes st2.mem a6 2) * 2 ^ 48 % 2 ^ 64)
                ||| readBytes st3.mem a4 2 * 2 ^ 32 % 2 ^ 64)
                ||| readBytes st4.mem a2 2 * 2 ^ 16 % 2 ^ 64), st4)
    match assembled with
    | (Except.error t, stf) => (Except.error t, stf)
    | (Except.ok insn, stf) =>
      let entry : icache_entry_t := { tag := addr, func := p.decode_insn insn, insn := insn }
      let paddr := iaddr
      if stf.tracer_interested paddr (paddr + 1) then
        (Except.ok { entry with tag := 2 ^ 64 - 1 },
         { stf with trace_log := stf.trace_log ++ [(paddr, length)] })
      else
        (Except.ok entry, stf)

/-- `access_icache` (mmu.h:210-216): direct-mapped lookup keyed by
`icache_index addr`; a hit requires `tag = addr`, otherwise the entry is
refilled in place. -/
def access_icache (sp : SlowPaths) (p : processor_t) (st : mmu_state)
    (addr : Nat) : Except Trap icache_entry_t × mmu_state :=
  let entry := st.icache (icache_index addr)
  if entry.tag = addr then (Except.ok entry, st)
  else
    match refill_icache sp p st addr with
    | (Except.ok e, st1) =>
      (Except.ok e,
       { st1 with icache := fun i => if i = icache_index addr then e else st1.icache i })
    | (Except.error t, st1) => (Except.error t, st1)

/-!  ## The bus (`src/riscv/devices.cc`)  -/

/-- Two's-complement negation of a `reg_t` (the `-addr` key trick in
`bus_t::add_device`). -/
def neg64 (a : Nat) : Nat := (2 ^ 64 - a % 2 ^ 64) % 2 ^ 64

/-- 64-bit wrap-around subtraction (`a - b` on `reg_t`). -/
def sub64 (a b : Nat) : Nat := (a % 2 ^ 64 + (2 ^ 64 - b % 2 ^ 64)) % 2 ^ 64

/-- `abstract_device_t`: a device's `load`/`store` is abstract; it receives the
offset and length and reports success.  (The byte buffer contents are not
modelled: the claims are about which device is invoked with which offset.) -/
structure abstract_device_t where
  dev_load : Nat → Nat → Bool
  dev_store : Nat → Nat → Bool

/-- `bus_t`: `devices` is the `std::map<reg_t, abstract_device_t*>`, stored as
an association list sorted strictly ascending by key. -/
structure bus_t where
  devices : List (Nat × abstract_device_t)

/-- The sortedness invariant `std::map` maintains on `bus_t.devices`:
keys strictly ascending. -/
def KeysSorted (l : List (Nat × abstract_device_t)) : Prop :=
  List.Pairwise (fun a b => a.1 < b.1) l

/-- Insertion into the sorted association list: `devices[k] = dev`
(replaces an existing binding of the same key, as `std::map::operator[]`). -/
def mapInsert : List (Nat × abstract_device_t) → Nat → abstract_device_t →
    List (Nat × abstract_device_t)
  | [], k, d => [(k, d)]
  | (k1, d1) :: rest, k, d =>
    if k < k1 then (k, d) :: (k1, d1) :: rest
    else if k = k1 then (k, d) :: rest
    else (k1, d1) :: mapInsert rest k d

/-- `std::map::lower_bound`: the first (smallest-key) entry whose key is
`≥ t`, on a sorted association list. -/
def lowerBound : List (Nat × abstract_device_t) → Nat → Option (Nat × abstract_device_t)
  | [], _ => none
  | (k, d) :: rest, t => if t ≤ k then some (k, d) else lowerBound rest t

/-- `bus_t::add_device` (devices.cc:3-6): `devices[-addr] = dev`. -/
def bus_t.add_device (bus : bus_t) (addr : Nat) (dev : abstract_device_t) : bus_t :=
  { devices := mapInsert bus.devices (neg64 addr) dev }

/-- `bus_t::load` (devices.cc:8-14): `lower_bound(-addr)`, then dispatch with
offset `addr - -it->first`. -/
def bus_t.load (bus : bus_t) (addr len : Nat) : Bool :=
  match lowerBound bus.devices (neg64 addr) with
  | none => false
  | some (k, d) => d.dev_load (sub64 addr (neg64 k)) len

/-- `bus_t::store` (devices.cc:16-22): same dispatch as `bus_t::load`. -/
def bus_t.store (bus : bus_t) (addr len : Nat) : Bool :=
  match lowerBound bus.devices (neg64 addr) with
  | none => false
  | some (k, d) => d.dev_store (sub64 addr (neg64 k)) len

/-!  ## Concrete fixtures for witnesses and counterexamples  -/

/-- A trivial slow-path implementation used to instantiate closed statements
(the fast-path claims never reach it). -/
def spEx : SlowPaths where
  load_slow_path := fun st _ _ => (Except.ok 0, st)
  store_slow_path := fun st _ _ _ => (Except.ok (), st)
  fetch_slow_path := fun st addr => (Except.ok addr, st)

/-- A processor with no configured triggers. -/
def pEx : processor_t where
  trigger_match := fun _ _ _ => -1
  mcontrol_timing := fun _ => 0
  decode_insn := fun n => n
  timestamp := 7
  prv := PRV_S
  dcsr_cause := 0
  mprv := false
  mpp := 0
  vm := VM_SV39
  pum := false
  mxr := false

/-- A processor whose trigger 0 matches everything with timing "before". -/
def pBefore : processor_t :=
  { pEx with trigger_match := fun _ _ _ => 0, mcontrol_timing := fun _ => 0 }

/-- A processor whose trigger 0 matches everything with timing "after". -/
def pAfter : processor_t :=
  { pEx with trigger_match := fun _ _ _ => 0, mcontrol_timing := fun _ => 1 }

/-- An empty permission table. -/
def tlbEmpty : tlb_t where
  meta := fun _ => 0
  tag_map := fun _ => none

/-- A permission table whose record for VPN 1 (virtual page 0x1000) is
`{valid, readable, writable=false}` — the spec §8 concrete scenario. -/
def dtlbPerm : tlb_t where
  meta := fun _ => PTE_V ||| PTE_R
  tag_map := fun t => if t = 1 then some 0 else none

/-- An MMU state in time-warp mode whose load/store TLBs hold a plain hit for
VPN 1 while the permission record marks page 0x1000 non-writable. -/
def stPerm : mmu_state where
  tlb_data := fun _ => 0
  tlb_insn_tag := fun _ => 2 ^ 64 - 1
  tlb_load_tag := fun i => if i = 1 then 1 else 2 ^ 64 - 1
  tlb_store_tag := fun i => if i = 1 then 1 else 2 ^ 64 - 1
  icache := fun _ => ⟨2 ^ 64 - 1, 0, 0⟩
  matched_trigger := none
  timewarp := true
  itlb := tlbEmpty
  dtlb := dtlbPerm
  mem := fun _ => 0
  traces := []
  trace_clks := []
  tracer_interested := fun _ _ => false
  trace_log := []

/-!  ## Theorems  -/

/-- The permission gate on every fast path (`if (likely(timewarp))
check_permission(...)`) can never fault, because `check_permission` returns
immediately. -/
theorem check_permission_gate (p : processor_t) (itlb dtlb : tlb_t)
    (addr : Nat) (ty : AccessType) (b : Bool) :
    (if b then check_permission p itlb dtlb addr ty else Except.ok ()) = Except.ok () := by
  cases b <;> rfl

/-- C3: `check_permission` is unconditionally bypassed — for every processor
state, permission tables, virtual address and access type it returns
immediately with no fault and no state change, even on inputs where the
permission logic written in its (unreachable) body would raise a fault. -/
theorem C3_check_permission_bypassed :
    (∀ (p : processor_t) (itlb dtlb : tlb_t) (vaddr : Nat) (ty : AccessType),
      check_permission p itlb dtlb vaddr ty = Except.ok ()) ∧
    check_permission_body pEx tlbEmpty dtlbPerm 0x1000 AccessType.store =
      Except.error (Trap.trap_store_access_fault 0x1000) :=
  ⟨fun _ _ _ _ _ => rfl, rfl⟩

/-- C2 (code bug): the store path never enforces the non-writable permission
record.  At the failing input — page 0x1000 marked `{valid, readable,
writable=false}` in `dtlbPerm`, time-warp mode on — `store_uint8(0x1000, 0xAB)`
completes with no fault, although the permission logic dead-coded inside
`check_permission` would have raised `StoreAccessFault(0x1000)`. -/
theorem C2_nonwritable_store_not_faulted :
    (store_func spEx pEx 1 stPerm 0x1000 0xAB).1 = Except.ok () ∧
    check_permission_body pEx stPerm.itlb stPerm.dtlb 0x1000 AccessType.store =
      Except.error (Trap.trap_store_access_fault 0x1000) := by
  constructor
  · rfl
  · rfl

/-- C4: a misaligned load or store (`A mod W ≠ 0` for the access widths 1, 2,
4, 8) raises the corresponding misaligned trap carrying the faulting address,
with the state unchanged (no memory mutation) and for *every* slow path,
processor and TLB content — so the fault precedes any permission check, TLB
lookup or translation. -/
theorem C4_misaligned_raises_before_translation (sp : SlowPaths) (p : processor_t)
    (sgn : Bool) (w addr val : Nat) (st : mmu_state)
    (hw : w = 1 ∨ w = 2 ∨ w = 4 ∨ w = 8) (hmis : addr % w ≠ 0) :
    load_func sp p sgn w st addr =
      (Except.error (Trap.trap_load_address_misaligned addr), st) ∧
    store_func sp p w st addr val =
      (Except.error (Trap.trap_store_address_misaligned addr), st) := by
  have hb : addr &&& (w - 1) ≠ 0 := by
    have e2 : addr &&& 1 = addr % 2 := Nat.and_pow_two_sub_one_eq_mod addr 1
    have e4 : addr &&& 3 = addr % 4 := Nat.and_pow_two_sub_one_eq_mod addr 2
    have e8 : addr &&& 7 = addr % 8 := Nat.and_pow_two_sub_one_eq_mod addr 3
    rcases hw with h | h | h | h <;> subst h
    · exact absurd (Nat.mod_one addr) hmis
    · show addr &&& 1 ≠ 0
      rw [e2]; exact hmis
    · show addr &&& 3 ≠ 0
      rw [e4]; exact hmis
    · show addr &&& 7 ≠ 0
      rw [e8]; exact hmis
  constructor
  · unfold load_func
    rw [if_pos hb]
  · unfold store_func
    rw [if_pos hb]

/-- Witness for C4 at `addr = 2`, `w = 4`. -/
theorem C4_witness :
    ((4 : Nat) = 1 ∨ (4 : Nat) = 2 ∨ (4 : Nat) = 4 ∨ (4 : Nat) = 8) ∧
    (2 : Nat) % 4 ≠ 0 ∧
    (load_func spEx pEx false 4 stPerm 2 =
       (Except.error (Trap.trap_load_address_misaligned 2), stPerm) ∧
     store_func spEx pEx 4 stPerm 2 0 =
       (Except.error (Trap.trap_store_address_misaligned 2), stPerm)) :=
  ⟨by decide, by decide,
   C4_misaligned_raises_before_translation spEx pEx false 4 2 0 stPerm
     (by decide) (by decide)⟩

/-- An MMU state whose load/store/fetch TLB entries for VPN 1 carry the
`TLB_CHECK_TRIGGERS` flag. -/
def stTrig : mmu_state :=
  { stPerm with
    timewarp := false
    tlb_insn_tag := fun i => if i = 1 then 1 ||| TLB_CHECK_TRIGGERS else 2 ^ 64 - 1
    tlb_load_tag := fun i => if i = 1 then 1 ||| TLB_CHECK_TRIGGERS else 2 ^ 64 - 1
    tlb_store_tag := fun i => if i = 1 then 1 ||| TLB_CHECK_TRIGGERS else 2 ^ 64 - 1 }

/-- An MMU state missing every TLB entry (all tags hold the `-1` fill). -/
def stMiss : mmu_state :=
  { stPerm with
    timewarp := false
    tlb_load_tag := fun _ => 2 ^ 64 - 1
    tlb_store_tag := fun _ => 2 ^ 64 - 1
    tlb_insn_tag := fun _ => 2 ^ 64 - 1 }

/-- A slow path whose load raises `trap_load_access_fault` at the access
address (to exercise the AMO reclassification). -/
def spLoadFault : SlowPaths :=
  { spEx with
    load_slow_path := fun st addr _ =>
      (Except.error (Trap.trap_load_access_fault addr), st) }

/-- C5: in time-warp mode, a store that hits in the store TLB (either with the
plain tag or with the trigger tag, when the write goes ahead) appends a
history record `{w, physical address, pre-write value}` keyed by the current
timestamp, where the recorded value is read from memory *before* the new value
is written. -/
theorem C5_record_captures_pre_write_value (sp : SlowPaths) (p : processor_t)
    (w : Nat) (st : mmu_state) (addr val : Nat)
    (halign : addr &&& (w - 1) = 0) (htw : st.timewarp = true) :
    (st.tlb_store_tag (addr >>> PGSHIFT % TLB_ENTRIES) = addr >>> PGSHIFT →
      store_func sp p w st addr val =
        (Except.ok (),
          { st with
            traces := st.traces ++
              [⟨w, st.tlb_data (addr >>> PGSHIFT % TLB_ENTRIES) + addr,
                readBytes st.mem (st.tlb_data (addr >>> PGSHIFT % TLB_ENTRIES) + addr) w⟩]
            trace_clks := st.trace_clks ++ [p.timestamp]
            mem := writeBytes st.mem
              (st.tlb_data (addr >>> PGSHIFT % TLB_ENTRIES) + addr) w val })) ∧
    (st.tlb_store_tag (addr >>> PGSHIFT % TLB_ENTRIES) ≠ addr >>> PGSHIFT →
     st.tlb_store_tag (addr >>> PGSHIFT % TLB_ENTRIES) =
       addr >>> PGSHIFT ||| TLB_CHECK_TRIGGERS →
     ∀ t0, st.matched_trigger = some t0 →
      store_func sp p w st addr val =
        (Except.ok (),
          { st with
            traces := st.traces ++
              [⟨w, st.tlb_data (addr >>> PGSHIFT % TLB_ENTRIES) + addr,
                readBytes st.mem (st.tlb_data (addr >>> PGSHIFT % TLB_ENTRIES) + addr) w⟩]
            trace_clks := st.trace_clks ++ [p.timestamp]
            mem := writeBytes st.mem
              (st.tlb_data (addr >>> PGSHIFT % TLB_ENTRIES) + addr) w val })) ∧
    (st.tlb_store_tag (addr >>> PGSHIFT % TLB_ENTRIES) ≠ addr >>> PGSHIFT →
     st.tlb_store_tag (addr >>> PGSHIFT % TLB_ENTRIES) =
       addr >>> PGSHIFT ||| TLB_CHECK_TRIGGERS →
     st.matched_trigger = none →
     trigger_exception (some p) TriggerOp.opStore addr val = Except.ok none →
      store_func sp p w st addr val =
        (Except.ok (),
          { st with
            traces := st.traces ++
              [⟨w, st.tlb_data (addr >>> PGSHIFT % TLB_ENTRIES) + addr,
                readBytes st.mem (st.tlb_data (addr >>> PGSHIFT % TLB_ENTRIES) + addr) w⟩]
            trace_clks := st.trace_clks ++ [p.timestamp]
            mem := writeBytes st.mem
              (st.tlb_data (addr >>> PGSHIFT % TLB_ENTRIES) + addr) w val })) := by
  have hb : (addr &&& (w - 1) ≠ 0) = False := eq_false (fun hc => hc halign)
  refine ⟨fun h1 => ?_, fun hne htag t0 hmt => ?_, fun hne htag hmt hte => ?_⟩
  · simp [store_func, hb, check_permission, h1, store_commit, record, htw]
  · have hc1 : (st.tlb_store_tag (addr >>> PGSHIFT % TLB_ENTRIES) =
        addr >>> PGSHIFT) = False := eq_false hne
    simp [store_func, hb, check_permission, hc1, htag, hmt, store_commit, record, htw]
  · have hc1 : (st.tlb_store_tag (addr >>> PGSHIFT % TLB_ENTRIES) =
        addr >>> PGSHIFT) = False := eq_false hne
    simp [store_func, hb, check_permission, hc1, htag, hmt, hte, store_commit,
      record, htw]

/-- Witness for C5: a one-byte store to 0x1000 in `stPerm` records the
pre-write byte 0 at timestamp 7 before writing 0xAB. -/
theorem C5_witness :
    (0x1000 : Nat) &&& (1 - 1) = 0 ∧ stPerm.timewarp = true ∧
    stPerm.tlb_store_tag (0x1000 >>> PGSHIFT % TLB_ENTRIES) = 0x1000 >>> PGSHIFT ∧
    store_func spEx pEx 1 stPerm 0x1000 0xAB =
      (Except.ok (),
        { stPerm with
          traces := stPerm.traces ++
            [⟨1, stPerm.tlb_data (0x1000 >>> PGSHIFT % TLB_ENTRIES) + 0x1000,
              readBytes stPerm.mem
                (stPerm.tlb_data (0x1000 >>> PGSHIFT % TLB_ENTRIES) + 0x1000) 1⟩]
          trace_clks := stPerm.trace_clks ++ [pEx.timestamp]
          mem := writeBytes stPerm.mem
            (stPerm.tlb_data (0x1000 >>> PGSHIFT % TLB_ENTRIES) + 0x1000) 1 0xAB }) :=
  ⟨by decide, rfl, by decide,
   (C5_record_captures_pre_write_value spEx pEx 1 stPerm 0x1000 0xAB
     (by decide) rfl).1 (by decide)⟩

/-- C6: an AMO checks alignment with the *store*-misaligned trap, and a
`trap_load_access_fault` escaping the embedded load is re-raised as
`trap_store_access_fault` with the same faulting address; consequently an AMO
never surfaces a `trap_load_access_fault` to its caller. -/
theorem C6_amo_reclassifies_load_faults (sp : SlowPaths) (p : processor_t)
    (w : Nat) (st : mmu_state) (addr : Nat) (f : Nat → Nat) :
    (addr &&& (w - 1) ≠ 0 →
      amo_func sp p w st addr f =
        (Except.error (Trap.trap_store_address_misaligned addr), st)) ∧
    (∀ b st1, load_func sp p false w st addr =
        (Except.error (Trap.trap_load_access_fault b), st1) →
      amo_func sp p w st addr f =
        (Except.error (Trap.trap_store_access_fault b), st1)) ∧
    (∀ b, (amo_func sp p w st addr f).1 ≠
      Except.error (Trap.trap_load_access_fault b)) := by
  refine ⟨fun hmis => ?_, fun b st1 hld => ?_, fun b => ?_⟩
  · simp [amo_func, hmis]
  · by_cases hal : addr &&& (w - 1) ≠ 0
    · unfold load_func at hld
      rw [if_pos hal] at hld
      simp at hld
    · simp [amo_func, hal, amo_body, hld, amo_catch]
  · by_cases hal : addr &&& (w - 1) ≠ 0
    · simp [amo_func, hal]
    · have key : ∀ r : Except Trap Nat × mmu_state,
          (amo_catch r).1 ≠ Except.error (Trap.trap_load_access_fault b) := by
        rintro ⟨e, st2⟩
        cases e with
        | error t => cases t <;> simp [amo_catch]
        | ok v => simp [amo_catch]
      simp only [amo_func, hal, if_neg, ite_false]
      exact key _

/-- Witness for C6: with every TLB entry missing and a slow path that raises
`trap_load_access_fault`, `amo_uint32` at address 8 surfaces
`trap_store_access_fault(8)`. -/
theorem C6_witness :
    load_func spLoadFault pEx false 4 stMiss 8 =
      (Except.error (Trap.trap_load_access_fault 8), stMiss) ∧
    amo_func spLoadFault pEx 4 stMiss 8 (fun x => x) =
      (Except.error (Trap.trap_store_access_fault 8), stMiss) :=
  ⟨rfl,
   (C6_amo_reclassifies_load_faults spLoadFault pEx 4 stMiss 8 (fun x => x)).2.1
     8 stMiss rfl⟩

/-- C7: `trigger_exception` raises the matched-trigger exception immediately
when the matched trigger's timing is "before" (0), returns the constructed
`trigger_matched_t` object to the caller when the timing is "after", and
returns NULL on no match (index -1) — in which case the access (here, a load
on the trigger-checking path) completes normally. -/
theorem C7_trigger_timing_dispatch (p : processor_t) (op : TriggerOp)
    (address data : Nat) :
    (p.trigger_match op address data = -1 →
      trigger_exception (some p) op address data = Except.ok none) ∧
    (∀ i : Int, p.trigger_match op address data = i → 0 ≤ i →
      p.mcontrol_timing i.toNat = 0 →
      trigger_exception (some p) op address data =
        Except.error ⟨i, op, address, data⟩) ∧
    (∀ i : Int, p.trigger_match op address data = i → 0 ≤ i →
      p.mcontrol_timing i.toNat ≠ 0 →
      trigger_exception (some p) op address data =
        Except.ok (some ⟨i, op, address, data⟩)) ∧
    (∀ (sp : SlowPaths) (sgn : Bool) (w : Nat) (st : mmu_state) (addr : Nat),
      addr &&& (w - 1) = 0 →
      st.tlb_load_tag (addr >>> PGSHIFT % TLB_ENTRIES) ≠ addr >>> PGSHIFT →
      st.tlb_load_tag (addr >>> PGSHIFT % TLB_ENTRIES) =
        addr >>> PGSHIFT ||| TLB_CHECK_TRIGGERS →
      st.matched_trigger = none →
      p.trigger_match TriggerOp.opLoad addr
        (loadValue sgn w (readBytes st.mem
          (st.tlb_data (addr >>> PGSHIFT % TLB_ENTRIES) + addr) w)) = -1 →
      load_func sp p sgn w st addr =
        (Except.ok (loadValue sgn w (readBytes st.mem
          (st.tlb_data (addr >>> PGSHIFT % TLB_ENTRIES) + addr) w)), st)) := by
  refine ⟨fun hm => ?_, fun i hm h0 htim => ?_, fun i hm h0 htim => ?_,
    fun sp sgn w st addr halign hne htag hmt hm => ?_⟩
  · simp [trigger_exception, hm]
  · have hne1 : ¬(i = -1) := by omega
    simp [trigger_exception, hm, hne1, htim]
  · have hne1 : ¬(i = -1) := by omega
    simp [trigger_exception, hm, hne1, htim]
  · have hb : (addr &&& (w - 1) ≠ 0) = False := eq_false (fun hc => hc halign)
    have hc1 : (st.tlb_load_tag (addr >>> PGSHIFT % TLB_ENTRIES) =
        addr >>> PGSHIFT) = False := eq_false hne
    simp [load_func, hb, check_permission, hc1, htag, hmt, trigger_exception, hm]

/-- Witness for C7: trigger 0 of `pBefore` (timing "before") throws, trigger 0
of `pAfter` (timing "after") is returned, no-trigger `pEx` yields NULL, and a
load through the trigger-checking entry of `stTrig` completes normally. -/
theorem C7_witness :
    trigger_exception (some pEx) TriggerOp.opLoad 8 0 = Except.ok none ∧
    trigger_exception (some pBefore) TriggerOp.opStore 8 5 =
      Except.error ⟨0, TriggerOp.opStore, 8, 5⟩ ∧
    trigger_exception (some pAfter) TriggerOp.opStore 8 5 =
      Except.ok (some ⟨0, TriggerOp.opStore, 8, 5⟩) ∧
    load_func spEx pEx false 4 stTrig 0x1000 = (Except.ok 0, stTrig) :=
  ⟨(C7_trigger_timing_dispatch pEx TriggerOp.opLoad 8 0).1 rfl,
   (C7_trigger_timing_dispatch pBefore TriggerOp.opStore 8 5).2.1 0 rfl
     (by decide) rfl,
   (C7_trigger_timing_dispatch pAfter TriggerOp.opStore 8 5).2.2.1 0 rfl
     (by decide) (by decide),
   (C7_trigger_timing_dispatch pEx TriggerOp.opLoad 0x1000 0).2.2.2 spEx false 4
     stTrig 0x1000 (by decide) (by decide) (by decide) rfl rfl⟩

/-- C1: dispatch of every aligned load, store and instruction fetch over the
TLB tag at slot `VPN mod TLB_ENTRIES`: a tag equal to the VPN is served
directly at `tlb_data[slot] + addr` (independent of the slow path); a tag
equal to `VPN ||| TLB_CHECK_TRIGGERS` is served from the same cached base
pointer with a trigger match evaluated against the address and data before
the access completes (when no earlier sub-access already matched); any other
tag delegates to the corresponding slow-path function. -/
theorem C1_tlb_fast_path_dispatch (sp : SlowPaths) (p : processor_t) (sgn : Bool)
    (w : Nat) (st : mmu_state) (addr val : Nat)
    (halign : addr &&& (w - 1) = 0) :
    ((st.tlb_load_tag (addr >>> PGSHIFT % TLB_ENTRIES) = addr >>> PGSHIFT →
        load_func sp p sgn w st addr =
          (Except.ok (loadValue sgn w (readBytes st.mem
            (st.tlb_data (addr >>> PGSHIFT % TLB_ENTRIES) + addr) w)), st)) ∧
     (st.tlb_load_tag (addr >>> PGSHIFT % TLB_ENTRIES) ≠ addr >>> PGSHIFT →
      st.tlb_load_tag (addr >>> PGSHIFT % TLB_ENTRIES) =
        addr >>> PGSHIFT ||| TLB_CHECK_TRIGGERS →
      st.matched_trigger = none →
      ∀ r, trigger_exception (some p) TriggerOp.opLoad addr
            (loadValue sgn w (readBytes st.mem
              (st.tlb_data (addr >>> PGSHIFT % TLB_ENTRIES) + addr) w)) = r →
        load_func sp p sgn w st addr =
          (match r with
           | Except.error t => (Except.error (Trap.trigger_matched t), st)
           | Except.ok none =>
             (Except.ok (loadValue sgn w (readBytes st.mem
               (st.tlb_data (addr >>> PGSHIFT % TLB_ENTRIES) + addr) w)), st)
           | Except.ok (some t) =>
             (Except.error (Trap.trigger_matched t),
              { st with matched_trigger := some t }))) ∧
     (st.tlb_load_tag (addr >>> PGSHIFT % TLB_ENTRIES) ≠ addr >>> PGSHIFT →
      st.tlb_load_tag (addr >>> PGSHIFT % TLB_ENTRIES) =
        addr >>> PGSHIFT ||| TLB_CHECK_TRIGGERS →
      ∀ t0, st.matched_trigger = some t0 →
        load_func sp p sgn w st addr =
          (Except.ok (loadValue sgn w (readBytes st.mem
            (st.tlb_data (addr >>> PGSHIFT % TLB_ENTRIES) + addr) w)), st)) ∧
     (st.tlb_load_tag (addr >>> PGSHIFT % TLB_ENTRIES) ≠ addr >>> PGSHIFT →
      st.tlb_load_tag (addr >>> PGSHIFT % TLB_ENTRIES) ≠
        addr >>> PGSHIFT ||| TLB_CHECK_TRIGGERS →
        load_func sp p sgn w st addr = sp.load_slow_path st addr w)) ∧
    ((st.tlb_store_tag (addr >>> PGSHIFT % TLB_ENTRIES) = addr >>> PGSHIFT →
        store_func sp p w st addr val =
          (Except.ok (), store_commit p w st addr val)) ∧
     (st.tlb_store_tag (addr >>> PGSHIFT % TLB_ENTRIES) ≠ addr >>> PGSHIFT →
      st.tlb_store_tag (addr >>> PGSHIFT % TLB_ENTRIES) =
        addr >>> PGSHIFT ||| TLB_CHECK_TRIGGERS →
      st.matched_trigger = none →
      ∀ r, trigger_exception (some p) TriggerOp.opStore addr val = r →
        store_func sp p w st addr val =
          (match r with
           | Except.error t => (Except.error (Trap.trigger_matched t), st)
           | Except.ok none => (Except.ok (), store_commit p w st addr val)
           | Except.ok (some t) =>
             (Except.error (Trap.trigger_matched t),
              { st with matched_trigger := some t }))) ∧
     (st.tlb_store_tag (addr >>> PGSHIFT % TLB_ENTRIES) ≠ addr >>> PGSHIFT →
      st.tlb_store_tag (addr >>> PGSHIFT % TLB_ENTRIES) =
        addr >>> PGSHIFT ||| TLB_CHECK_TRIGGERS →
      ∀ t0, st.matched_trigger = some t0 →
        store_func sp p w st addr val =
          (Except.ok (), store_commit p w st addr val)) ∧
     (st.tlb_store_tag (addr >>> PGSHIFT % TLB_ENTRIES) ≠ addr >>> PGSHIFT →
      st.tlb_store_tag (addr >>> PGSHIFT % TLB_ENTRIES) ≠
        addr >>> PGSHIFT ||| TLB_CHECK_TRIGGERS →
        store_func sp p w st addr val = sp.store_slow_path st addr w val)) ∧
    ((st.tlb_insn_tag (addr >>> PGSHIFT % TLB_ENTRIES) = addr >>> PGSHIFT →
        translate_insn_addr sp p st addr =
          (Except.ok (st.tlb_data (addr >>> PGSHIFT % TLB_ENTRIES) + addr), st)) ∧
     (st.tlb_insn_tag (addr >>> PGSHIFT % TLB_ENTRIES) ≠ addr >>> PGSHIFT →
      st.tlb_insn_tag (addr >>> PGSHIFT % TLB_ENTRIES) =
        addr >>> PGSHIFT ||| TLB_CHECK_TRIGGERS →
      0 ≤ p.trigger_match TriggerOp.opExecute addr
          (readBytes st.mem (st.tlb_data (addr >>> PGSHIFT % TLB_ENTRIES) + addr) 2) →
        translate_insn_addr sp p st addr =
          (Except.error (Trap.trigger_matched
            ⟨p.trigger_match TriggerOp.opExecute addr
              (readBytes st.mem (st.tlb_data (addr >>> PGSHIFT % TLB_ENTRIES) + addr) 2),
             TriggerOp.opExecute, addr,
             readBytes st.mem (st.tlb_data (addr >>> PGSHIFT % TLB_ENTRIES) + addr) 2⟩),
           st)) ∧
     (st.tlb_insn_tag (addr >>> PGSHIFT % TLB_ENTRIES) ≠ addr >>> PGSHIFT →
      st.tlb_insn_tag (addr >>> PGSHIFT % TLB_ENTRIES) =
        addr >>> PGSHIFT ||| TLB_CHECK_TRIGGERS →
      ¬(0 ≤ p.trigger_match TriggerOp.opExecute addr
          (readBytes st.mem (st.tlb_data (addr >>> PGSHIFT % TLB_ENTRIES) + addr) 2)) →
        translate_insn_addr sp p st addr =
          (Except.ok (st.tlb_data (addr >>> PGSHIFT % TLB_ENTRIES) + addr), st)) ∧
     (st.tlb_insn_tag (addr >>> PGSHIFT % TLB_ENTRIES) ≠ addr >>> PGSHIFT →
      st.tlb_insn_tag (addr >>> PGSHIFT % TLB_ENTRIES) ≠
        addr >>> PGSHIFT ||| TLB_CHECK_TRIGGERS →
        translate_insn_addr sp p st addr = sp.fetch_slow_path st addr)) := by
  have hb : (addr &&& (w - 1) ≠ 0) = False := eq_false (fun hc => hc halign)
  refine ⟨⟨fun h1 => ?_, fun hne htag hmt r hr => ?_, fun hne htag t0 hmt => ?_,
      fun hne hne2 => ?_⟩,
    ⟨fun h1 => ?_, fun hne htag hmt r hr => ?_, fun hne htag t0 hmt => ?_,
      fun hne hne2 => ?_⟩,
    ⟨fun h1 => ?_, fun hne htag hge => ?_, fun hne htag hlt => ?_,
      fun hne hne2 => ?_⟩⟩
  · simp [load_func, hb, check_permission, h1]
  · have hc1 : (st.tlb_load_tag (addr >>> PGSHIFT % TLB_ENTRIES) =
        addr >>> PGSHIFT) = False := eq_false hne
    have hlv : ¬(addr >>> PGSHIFT ||| TLB_CHECK_TRIGGERS = addr >>> PGSHIFT) :=
      htag ▸ hne
    rcases r with t | _ | t <;>
      simp [load_func, hb, check_permission, hc1, htag, hmt, hr, hlv]
  · have hc1 : (st.tlb_load_tag (addr >>> PGSHIFT % TLB_ENTRIES) =
        addr >>> PGSHIFT) = False := eq_false hne
    have hlv : ¬(addr >>> PGSHIFT ||| TLB_CHECK_TRIGGERS = addr >>> PGSHIFT) :=
      htag ▸ hne
    simp [load_func, hb, check_permission, hc1, htag, hmt, hlv]
  · have hc1 : (st.tlb_load_tag (addr >>> PGSHIFT % TLB_ENTRIES) =
        addr >>> PGSHIFT) = False := eq_false hne
    have hc2 : (st.tlb_load_tag (addr >>> PGSHIFT % TLB_ENTRIES) =
        addr >>> PGSHIFT ||| TLB_CHECK_TRIGGERS) = False := eq_false hne2
    simp [load_func, hb, check_permission, hc1, hc2]
  · simp [store_func, hb, check_permission, h1]
  · have hc1 : (st.tlb_store_tag (addr >>> PGSHIFT % TLB_ENTRIES) =
        addr >>> PGSHIFT) = False := eq_false hne
    have hlv : ¬(addr >>> PGSHIFT ||| TLB_CHECK_TRIGGERS = addr >>> PGSHIFT) :=
      htag ▸ hne
    rcases r with t | _ | t <;>
      simp [store_func, hb, check_permission, hc1, htag, hmt, hr, hlv]
  · have hc1 : (st.tlb_store_tag (addr >>> PGSHIFT % TLB_ENTRIES) =
        addr >>> PGSHIFT) = False := eq_false hne
    have hlv : ¬(addr >>> PGSHIFT ||| TLB_CHECK_TRIGGERS = addr >>> PGSHIFT) :=
      htag ▸ hne
    simp [store_func, hb, check_permission, hc1, htag, hmt, hlv]
  · have hc1 : (st.tlb_store_tag (addr >>> PGSHIFT % TLB_ENTRIES) =
        addr >>> PGSHIFT) = False := eq_false hne
    have hc2 : (st.tlb_store_tag (addr >>> PGSHIFT % TLB_ENTRIES) =
        addr >>> PGSHIFT ||| TLB_CHECK_TRIGGERS) = False := eq_false hne2
    simp [store_func, hb, check_permission, hc1, hc2]
  · simp [translate_insn_addr, check_permission, h1]
  · have hc1 : (st.tlb_insn_tag (addr >>> PGSHIFT % TLB_ENTRIES) =
        addr >>> PGSHIFT) = False := eq_false hne
    have hlv : ¬(addr >>> PGSHIFT ||| TLB_CHECK_TRIGGERS = addr >>> PGSHIFT) :=
      htag ▸ hne
    simp [translate_insn_addr, check_permission, hc1, htag, hge, hlv]
  · have hc1 : (st.tlb_insn_tag (addr >>> PGSHIFT % TLB_ENTRIES) =
        addr >>> PGSHIFT) = False := eq_false hne
    have hlv : ¬(addr >>> PGSHIFT ||| TLB_CHECK_TRIGGERS = addr >>> PGSHIFT) :=
      htag ▸ hne
    simp [translate_insn_addr, check_permission, hc1, htag, hlt, hlv]
  · have hc1 : (st.tlb_insn_tag (addr >>> PGSHIFT % TLB_ENTRIES) =
        addr >>> PGSHIFT) = False := eq_false hne
    have hc2 : (st.tlb_insn_tag (addr >>> PGSHIFT % TLB_ENTRIES) =
        addr >>> PGSHIFT ||| TLB_CHECK_TRIGGERS) = False := eq_false hne2
    simp [translate_insn_addr, check_permission, hc1, hc2]

/-- Witness for C1: a plain-hit load in `stPerm`, and slow-path delegation for
load, store and fetch in `stMiss`. -/
theorem C1_witness :
    (0x1000 : Nat) &&& (4 - 1) = 0 ∧
    stPerm.tlb_load_tag (0x1000 >>> PGSHIFT % TLB_ENTRIES) = 0x1000 >>> PGSHIFT ∧
    load_func spEx pEx false 4 stPerm 0x1000 =
      (Except.ok (loadValue false 4 (readBytes stPerm.mem
        (stPerm.tlb_data (0x1000 >>> PGSHIFT % TLB_ENTRIES) + 0x1000) 4)), stPerm) ∧
    load_func spEx pEx false 4 stMiss 0x1000 = spEx.load_slow_path stMiss 0x1000 4 ∧
    store_func spEx pEx 4 stMiss 0x1000 5 = spEx.store_slow_path stMiss 0x1000 4 5 ∧
    translate_insn_addr spEx pEx stMiss 0x1000 = spEx.fetch_slow_path stMiss 0x1000 :=
  ⟨by decide, by decide,
   (C1_tlb_fast_path_dispatch spEx pEx false 4 stPerm 0x1000 5 (by decide)).1.1
     (by decide),
   (C1_tlb_fast_path_dispatch spEx pEx false 4 stMiss 0x1000 5 (by decide)).1.2.2.2
     (by decide) (by decide),
   (C1_tlb_fast_path_dispatch spEx pEx false 4 stMiss 0x1000 5 (by decide)).2.1.2.2.2
     (by decide) (by decide),
   (C1_tlb_fast_path_dispatch spEx pEx false 4 stMiss 0x1000 5 (by decide)).2.2.2.2.2
     (by decide) (by decide)⟩

/-- `stTrig` with an already-matched trigger stored in the matched-trigger
slot (as after an earlier sub-access of the same instruction). -/
def stC8 : mmu_state :=
  { stTrig with matched_trigger := some ⟨0, TriggerOp.opLoad, 0, 0⟩ }

/-- C8 counterexample: the claim says trigger evaluation is skipped on *every*
load, store and instruction-fetch access when the matched-trigger slot is
non-empty; but `translate_insn_addr` (the instruction-fetch path) has no such
guard — with `stC8.matched_trigger` already holding a match, a fetch through
the trigger-checking ITLB entry still evaluates `proc->trigger_match` and
throws on the match, instead of completing. -/
theorem C8_counterexample :
    stC8.matched_trigger = some ⟨0, TriggerOp.opLoad, 0, 0⟩ ∧
    translate_insn_addr spEx pBefore stC8 0x1000 =
      (Except.error (Trap.trigger_matched ⟨0, TriggerOp.opExecute, 0x1000, 0⟩), stC8) :=
  ⟨rfl, rfl⟩

/-- C8 (amended): on load and store accesses that reach a trigger-checking TLB
entry, trigger evaluation is skipped entirely when the matched-trigger slot is
non-empty (the access completes from the cached pointer and the slot is left
unchanged, so at most one matched trigger is tracked); the instruction-fetch
path, however, evaluates triggers unconditionally and throws immediately on a
match, never consulting or filling the slot. -/
theorem C8_amended_matched_trigger_skip (sp : SlowPaths) (p : processor_t)
    (sgn : Bool) (w : Nat) (st : mmu_state) (addr val : Nat)
    (halign : addr &&& (w - 1) = 0) :
    (st.tlb_load_tag (addr >>> PGSHIFT % TLB_ENTRIES) ≠ addr >>> PGSHIFT →
     st.tlb_load_tag (addr >>> PGSHIFT % TLB_ENTRIES) =
       addr >>> PGSHIFT ||| TLB_CHECK_TRIGGERS →
     ∀ t0, st.matched_trigger = some t0 →
      load_func sp p sgn w st addr =
        (Except.ok (loadValue sgn w (readBytes st.mem
          (st.tlb_data (addr >>> PGSHIFT % TLB_ENTRIES) + addr) w)), st)) ∧
    (st.tlb_store_tag (addr >>> PGSHIFT % TLB_ENTRIES) ≠ addr >>> PGSHIFT →
     st.tlb_store_tag (addr >>> PGSHIFT % TLB_ENTRIES) =
       addr >>> PGSHIFT ||| TLB_CHECK_TRIGGERS →
     ∀ t0, st.matched_trigger = some t0 →
      store_func sp p w st addr val = (Except.ok (), store_commit p w st addr val) ∧
      (store_commit p w st addr val).matched_trigger = some t0) ∧
    (st.tlb_insn_tag (addr >>> PGSHIFT % TLB_ENTRIES) ≠ addr >>> PGSHIFT →
     st.tlb_insn_tag (addr >>> PGSHIFT % TLB_ENTRIES) =
       addr >>> PGSHIFT ||| TLB_CHECK_TRIGGERS →
     ∀ t0, st.matched_trigger = some t0 →
     0 ≤ p.trigger_match TriggerOp.opExecute addr
         (readBytes st.mem (st.tlb_data (addr >>> PGSHIFT % TLB_ENTRIES) + addr) 2) →
      translate_insn_addr sp p st addr =
        (Except.error (Trap.trigger_matched
          ⟨p.trigger_match TriggerOp.opExecute addr
            (readBytes st.mem (st.tlb_data (addr >>> PGSHIFT % TLB_ENTRIES) + addr) 2),
           TriggerOp.opExecute, addr,
           readBytes st.mem (st.tlb_data (addr >>> PGSHIFT % TLB_ENTRIES) + addr) 2⟩),
         st)) := by
  have hb : (addr &&& (w - 1) ≠ 0) = False := eq_false (fun hc => hc halign)
  refine ⟨fun hne htag t0 hmt => ?_, fun hne htag t0 hmt => ?_,
    fun hne htag t0 hmt hge => ?_⟩
  · have hc1 : (st.tlb_load_tag (addr >>> PGSHIFT % TLB_ENTRIES) =
        addr >>> PGSHIFT) = False := eq_false hne
    have hlv : ¬(addr >>> PGSHIFT ||| TLB_CHECK_TRIGGERS = addr >>> PGSHIFT) :=
      htag ▸ hne
    simp [load_func, hb, check_permission, hc1, htag, hmt, hlv]
  · have hc1 : (st.tlb_store_tag (addr >>> PGSHIFT % TLB_ENTRIES) =
        addr >>> PGSHIFT) = False := eq_false hne
    have hlv : ¬(addr >>> PGSHIFT ||| TLB_CHECK_TRIGGERS = addr >>> PGSHIFT) :=
      htag ▸ hne
    constructor
    · simp [store_func, hb, check_permission, hc1, htag, hmt, hlv]
    · cases hw : st.timewarp <;> simp [store_commit, record, hw, hmt]
  · have hc1 : (st.tlb_insn_tag (addr >>> PGSHIFT % TLB_ENTRIES) =
        addr >>> PGSHIFT) = False := eq_false hne
    have hlv : ¬(addr >>> PGSHIFT ||| TLB_CHECK_TRIGGERS = addr >>> PGSHIFT) :=
      htag ▸ hne
    simp [translate_insn_addr, check_permission, hc1, htag, hge, hlv]

/-- Witness for the amended C8 at `stC8` (trigger-checking entries, slot
already holding a match): the load completes and the fetch still throws. -/
theorem C8_amended_witness :
    (0x1000 : Nat) &&& (4 - 1) = 0 ∧
    stC8.tlb_load_tag (0x1000 >>> PGSHIFT % TLB_ENTRIES) ≠ 0x1000 >>> PGSHIFT ∧
    stC8.tlb_load_tag (0x1000 >>> PGSHIFT % TLB_ENTRIES) =
      0x1000 >>> PGSHIFT ||| TLB_CHECK_TRIGGERS ∧
    stC8.matched_trigger = some ⟨0, TriggerOp.opLoad, 0, 0⟩ ∧
    load_func spEx pBefore false 4 stC8 0x1000 =
      (Except.ok (loadValue false 4 (readBytes stC8.mem
        (stC8.tlb_data (0x1000 >>> PGSHIFT % TLB_ENTRIES) + 0x1000) 4)), stC8) ∧
    translate_insn_addr spEx pBefore stC8 0x1000 =
      (Except.error (Trap.trigger_matched
        ⟨pBefore.trigger_match TriggerOp.opExecute 0x1000
          (readBytes stC8.mem (stC8.tlb_data (0x1000 >>> PGSHIFT % TLB_ENTRIES) + 0x1000) 2),
         TriggerOp.opExecute, 0x1000,
         readBytes stC8.mem (stC8.tlb_data (0x1000 >>> PGSHIFT % TLB_ENTRIES) + 0x1000) 2⟩),
       stC8) :=
  ⟨by decide, by decide, by decide, rfl,
   (C8_amended_matched_trigger_skip spEx pBefore false 4 stC8 0x1000 0
      (by decide)).1 (by decide) (by decide) ⟨0, TriggerOp.opLoad, 0, 0⟩ rfl,
   (C8_amended_matched_trigger_skip spEx pBefore false 4 stC8 0x1000 0
      (by decide)).2.2 (by decide) (by decide) ⟨0, TriggerOp.opLoad, 0, 0⟩ rfl
      (by decide)⟩

/-- Helper: a plain ITLB hit translates to the cached base plus the address,
with no state change. -/
theorem translate_insn_addr_hit (sp : SlowPaths) (p : processor_t)
    (st : mmu_state) (a : Nat)
    (h : st.tlb_insn_tag (a >>> PGSHIFT % TLB_ENTRIES) = a >>> PGSHIFT) :
    translate_insn_addr sp p st a =
      (Except.ok (st.tlb_data (a >>> PGSHIFT % TLB_ENTRIES) + a), st) := by
  simp [translate_insn_addr, check_permission, h]

/-- An icache-refill fixture: the 4-byte instruction `0x00000003` sits at
0x2000 (plain ITLB hit for VPN 2), and the tracer is interested in physical
address 0x2002 — the *second* halfword's location — but not in 0x2000. -/
def stC9 : mmu_state :=
  { stPerm with
    timewarp := false
    tlb_insn_tag := fun i => if i = 2 then 2 else 2 ^ 64 - 1
    mem := fun a => if a = 0x2000 then 0x03 else 0
    tracer_interested := fun lo _ => lo == 0x2002 }

/-- C9 counterexample: the claim says the tag is forced to the invalid
sentinel whenever *any* fetched halfword's physical location is under
tracing.  In `stC9` the second halfword of the 4-byte instruction at 0x2000
lives at traced physical address 0x2002 (first conjunct), yet `refill_icache`
leaves the tag equal to the pc 0x2000 (not `-1`) and emits no trace event
(the state is unchanged): the code consults the tracer only for the *first*
halfword's location. -/
theorem C9_counterexample :
    stC9.tracer_interested 0x2002 (0x2002 + 1) = true ∧
    refill_icache spEx pEx stC9 0x2000 =
      (Except.ok { tag := 0x2000, func := 3, insn := 3 }, stC9) :=
  ⟨rfl, rfl⟩

/-- C9 (amended): on an instruction-cache refill whose halfword fetches all
hit the ITLB with plain tags, the decision is made on the *first* fetched
halfword's physical location only: if the tracer is interested in it, the
entry's tag is set to the invalid sentinel `2^64 - 1` and a trace event is
emitted; otherwise the tag is set to the pc and no event is emitted.  A
subsequent `access_icache` hits (returns the cached entry with no refill)
exactly when the slot's tag equals the pc, and a refill installs the returned
entry into the slot — so a sentinel-tagged entry makes the next access
refetch, while a pc-tagged entry makes it hit. -/
theorem C9_amended_first_halfword_tracing (sp : SlowPaths) (p : processor_t)
    (st : mmu_state) (addr : Nat)
    (ht0 : st.tlb_insn_tag (addr >>> PGSHIFT % TLB_ENTRIES) = addr >>> PGSHIFT)
    (ht2 : st.tlb_insn_tag ((addr + 2) >>> PGSHIFT % TLB_ENTRIES) = (addr + 2) >>> PGSHIFT)
    (ht4 : st.tlb_insn_tag ((addr + 4) >>> PGSHIFT % TLB_ENTRIES) = (addr + 4) >>> PGSHIFT)
    (ht6 : st.tlb_insn_tag ((addr + 6) >>> PGSHIFT % TLB_ENTRIES) = (addr + 6) >>> PGSHIFT) :
    (st.tracer_interested (st.tlb_data (addr >>> PGSHIFT % TLB_ENTRIES) + addr)
        (st.tlb_data (addr >>> PGSHIFT % TLB_ENTRIES) + addr + 1) = true →
      (refill_icache sp p st addr).2 =
          { st with trace_log := st.trace_log ++
              [(st.tlb_data (addr >>> PGSHIFT % TLB_ENTRIES) + addr,
                insn_length (readBytes st.mem
                  (st.tlb_data (addr >>> PGSHIFT % TLB_ENTRIES) + addr) 2))] } ∧
      Except.map icache_entry_t.tag (refill_icache sp p st addr).1 =
        Except.ok (2 ^ 64 - 1)) ∧
    (st.tracer_interested (st.tlb_data (addr >>> PGSHIFT % TLB_ENTRIES) + addr)
        (st.tlb_data (addr >>> PGSHIFT % TLB_ENTRIES) + addr + 1) = false →
      (refill_icache sp p st addr).2 = st ∧
      Except.map icache_entry_t.tag (refill_icache sp p st addr).1 =
        Except.ok addr) ∧
    (∀ st2 : mmu_state, (st2.icache (icache_index addr)).tag = addr →
      access_icache sp p st2 addr =
        (Except.ok (st2.icache (icache_index addr)), st2)) ∧
    (∀ (st2 stf : mmu_state) (e : icache_entry_t),
      (st2.icache (icache_index addr)).tag ≠ addr →
      refill_icache sp p st2 addr = (Except.ok e, stf) →
      access_icache sp p st2 addr =
        (Except.ok e,
         { stf with icache := fun i =>
            if i = icache_index addr then e else stf.icache i })) := by
  have e0 := translate_insn_addr_hit sp p st addr ht0
  have e2 := translate_insn_addr_hit sp p st (addr + 2) ht2
  have e4 := translate_insn_addr_hit sp p st (addr + 4) ht4
  have e6 := translate_insn_addr_hit sp p st (addr + 6) ht6
  refine ⟨fun htr => ?_, fun htr => ?_, fun st2 hhit => ?_, fun st2 stf e hmiss hrf => ?_⟩
  · by_cases h4 : insn_length (readBytes st.mem
        (st.tlb_data (addr >>> PGSHIFT % TLB_ENTRIES) + addr) 2) = 4
    · constructor <;> simp [refill_icache, e0, e2, h4, htr, Except.map]
    · by_cases h2 : insn_length (readBytes st.mem
          (st.tlb_data (addr >>> PGSHIFT % TLB_ENTRIES) + addr) 2) = 2
      · constructor <;> simp [refill_icache, e0, h4, h2, htr, Except.map]
      · by_cases h6 : insn_length (readBytes st.mem
            (st.tlb_data (addr >>> PGSHIFT % TLB_ENTRIES) + addr) 2) = 6
        · constructor <;> simp [refill_icache, e0, e2, e4, h4, h2, h6, htr, Except.map]
        · constructor <;> simp [refill_icache, e0, e2, e4, e6, h4, h2, h6, htr, Except.map]
  · by_cases h4 : insn_length (readBytes st.mem
        (st.tlb_data (addr >>> PGSHIFT % TLB_ENTRIES) + addr) 2) = 4
    · constructor <;> simp [refill_icache, e0, e2, h4, htr, Except.map]
    · by_cases h2 : insn_length (readBytes st.mem
          (st.tlb_data (addr >>> PGSHIFT % TLB_ENTRIES) + addr) 2) = 2
      · constructor <;> simp [refill_icache, e0, h4, h2, htr, Except.map]
      · by_cases h6 : insn_length (readBytes st.mem
            (st.tlb_data (addr >>> PGSHIFT % TLB_ENTRIES) + addr) 2) = 6
        · constructor <;> simp [refill_icache, e0, e2, e4, h4, h2, h6, htr, Except.map]
        · constructor <;> simp [refill_icache, e0, e2, e4, e6, h4, h2, h6, htr, Except.map]
  · simp [access_icache, hhit]
  · have hc : ((st2.icache (icache_index addr)).tag = addr) = False := eq_false hmiss
    simp [access_icache, hc, hrf]

/-- Witness for the amended C9: in `stC9` (second halfword traced, first not)
the refill keeps `tag = pc` and changes nothing; with the tracer moved to the
first halfword's location the refill returns a sentinel-tagged entry and logs
a trace event; and an entry whose tag equals the pc makes `access_icache`
hit. -/
theorem C9_amended_witness :
    stC9.tracer_interested (stC9.tlb_data (0x2000 >>> PGSHIFT % TLB_ENTRIES) + 0x2000)
      (stC9.tlb_data (0x2000 >>> PGSHIFT % TLB_ENTRIES) + 0x2000 + 1) = false ∧
    ((refill_icache spEx pEx stC9 0x2000).2 = stC9 ∧
     Except.map icache_entry_t.tag (refill_icache spEx pEx stC9 0x2000).1 =
       Except.ok 0x2000) ∧
    ((refill_icache spEx pEx
        { stC9 with tracer_interested := fun lo _ => lo == 0x2000 } 0x2000).2 =
        { stC9 with
          tracer_interested := fun lo _ => lo == 0x2000
          trace_log := [(stC9.tlb_data (0x2000 >>> PGSHIFT % TLB_ENTRIES) + 0x2000,
            insn_length (readBytes stC9.mem
              (stC9.tlb_data (0x2000 >>> PGSHIFT % TLB_ENTRIES) + 0x2000) 2))] } ∧
     Except.map icache_entry_t.tag (refill_icache spEx pEx
        { stC9 with tracer_interested := fun lo _ => lo == 0x2000 } 0x2000).1 =
       Except.ok (2 ^ 64 - 1)) ∧
    access_icache spEx pEx
        { stC9 with icache := fun _ => ⟨0x2000, 3, 3⟩ } 0x2000 =
      (Except.ok ⟨0x2000, 3, 3⟩, { stC9 with icache := fun _ => ⟨0x2000, 3, 3⟩ }) :=
  ⟨by decide,
   (C9_amended_first_halfword_tracing spEx pEx stC9 0x2000
      (by decide) (by decide) (by decide) (by decide)).2.1 (by decide),
   (C9_amended_first_halfword_tracing spEx pEx
      { stC9 with tracer_interested := fun lo _ => lo == 0x2000 } 0x2000
      (by decide) (by decide) (by decide) (by decide)).1 (by decide),
   (C9_amended_first_halfword_tracing spEx pEx
      { stC9 with icache := fun _ => ⟨0x2000, 3, 3⟩ } 0x2000
      (by decide) (by decide) (by decide) (by decide)).2.2.1
      { stC9 with icache := fun _ => ⟨0x2000, 3, 3⟩ } rfl⟩

/-- `lowerBound` returns `none` exactly when every key is below the target. -/
theorem lowerBound_none (l : List (Nat × abstract_device_t)) (t : Nat)
    (h : ∀ kd ∈ l, kd.1 < t) : lowerBound l t = none := by
  induction l with
  | nil => rfl
  | cons hd tl ih =>
    have hhd : hd.1 < t := h hd (List.mem_cons_self hd tl)
    rcases hd with ⟨k1, d1⟩
    simp only [lowerBound, if_neg (Nat.not_le.mpr hhd)]
    exact ih fun kd hkd => h kd (List.mem_cons_of_mem _ hkd)

/-- On a sorted list, `lowerBound` returns the entry with the least key that
is at least the target. -/
theorem lowerBound_eq (l : List (Nat × abstract_device_t)) (t k : Nat)
    (d : abstract_device_t) (hs : KeysSorted l) (hmem : (k, d) ∈ l)
    (hge : t ≤ k) (hmin : ∀ kd ∈ l, t ≤ kd.1 → k ≤ kd.1) :
    lowerBound l t = some (k, d) := by
  induction l with
  | nil => cases hmem
  | cons hd tl ih =>
    rcases List.mem_cons.mp hmem with h | h
    · rcases hd with ⟨k1, d1⟩
      cases h
      simp only [lowerBound, if_pos hge]
    · rcases hd with ⟨k1, d1⟩
      have hk1k : k1 < k := by
        have := (List.pairwise_cons.mp hs).1 (k, d) h
        simpa using this
      have hk1t : k1 < t := by
        by_contra hc
        have := hmin (k1, d1) (List.mem_cons_self _ _) (Nat.not_lt.mp hc)
        omega
      simp only [lowerBound, if_neg (Nat.not_le.mpr hk1t)]
      exact ih (List.pairwise_cons.mp hs).2 h
        (fun kd hkd hkd2 => hmin kd (List.mem_cons_of_mem _ hkd) hkd2)

/-- `neg64` of a nonzero 64-bit value. -/
theorem neg64_of_pos (x : Nat) (h1 : 1 ≤ x) (h2 : x < 2 ^ 64) :
    neg64 x = 2 ^ 64 - x := by
  unfold neg64
  rw [Nat.mod_eq_of_lt h2, Nat.mod_eq_of_lt (by omega)]

/-- `neg64` stays below `2 ^ 64`. -/
theorem neg64_lt (x : Nat) : neg64 x < 2 ^ 64 :=
  Nat.mod_lt _ (by norm_num)

/-- An all-false device and an offset-checking device for the bus fixtures. -/
def devA : abstract_device_t where
  dev_load := fun _ _ => false
  dev_store := fun _ _ => false

/-- Device accepting exactly offset 0x500 with length 4. -/
def devB : abstract_device_t where
  dev_load := fun off len => off == 0x500 && len == 4
  dev_store := fun off len => off == 0x500 && len == 4

/-- Always-succeeding device for the counterexample. -/
def devTrue : abstract_device_t where
  dev_load := fun _ _ => true
  dev_store := fun _ _ => true

/-- A bus with a single device registered at base address 8. -/
def busC10 : bus_t := bus_t.add_device ⟨[]⟩ 8 devTrue

/-- C10 counterexample: the only registered device has base 8, so at
`addr = 0` there is no device whose base is `≤ addr` except none — the claim
says `load`/`store` must return false without invoking any device.  But the
negated-key `lower_bound` trick wraps around at 0: `lower_bound(-0) =
lower_bound(0)` finds the entry `(2^64 - 8, devTrue)` and invokes the device
(with wrapped offset `0 - 8 = 2^64 - 8`), returning true. -/
theorem C10_counterexample :
    busC10.devices = [(neg64 8, devTrue)] ∧
    bus_t.load busC10 0 4 = true ∧ bus_t.store busC10 0 4 = true :=
  ⟨rfl, rfl, rfl⟩

/-- C10 (amended): for `1 ≤ addr < 2^64`, `bus_t::load`/`bus_t::store`
dispatch to the registered device with the greatest base address in
`[1, addr]`, invoking it with offset `addr - base`; if no device has base in
`[1, addr]` they return false without invoking any device (in particular a
device registered at base 0 is never selected for `addr ≥ 1`).  For
`addr = 0` the `lower_bound` on negated keys degenerates: it selects the
entry with the smallest stored key (base 0 if registered, otherwise the
*greatest* registered base, with a wrapped-around offset), and returns false
only when no device is registered at all.  Bases are represented through
their stored keys: the entry `(k, d)` has base `neg64 k`. -/
theorem C10_amended_bus_dispatch (bus : bus_t) (addr len : Nat)
    (hs : KeysSorted bus.devices)
    (hk : ∀ kd ∈ bus.devices, kd.1 < 2 ^ 64)
    (haddr : addr < 2 ^ 64) :
    (∀ k d, (k, d) ∈ bus.devices → 1 ≤ addr → 1 ≤ neg64 k → neg64 k ≤ addr →
      (∀ kd ∈ bus.devices, 1 ≤ neg64 kd.1 → neg64 kd.1 ≤ addr →
        neg64 kd.1 ≤ neg64 k) →
      bus_t.load bus addr len = d.dev_load (addr - neg64 k) len ∧
      bus_t.store bus addr len = d.dev_store (addr - neg64 k) len) ∧
    (1 ≤ addr → (∀ kd ∈ bus.devices, ¬(1 ≤ neg64 kd.1 ∧ neg64 kd.1 ≤ addr)) →
      bus_t.load bus addr len = false ∧ bus_t.store bus addr len = false) ∧
    (∀ k d tl, bus.devices = (k, d) :: tl →
      bus_t.load bus 0 len = d.dev_load (sub64 0 (neg64 k)) len ∧
      bus_t.store bus 0 len = d.dev_store (sub64 0 (neg64 k)) len) ∧
    (bus.devices = [] →
      bus_t.load bus addr len = false ∧ bus_t.store bus addr len = false) := by
  refine ⟨fun k d hmem h1 hbge hble hmax => ?_,
    fun h1 hnone => ?_, fun k d tl hdev => ?_, fun hdev => ?_⟩
  · have hklt : k < 2 ^ 64 := hk (k, d) hmem
    have ht : neg64 addr = 2 ^ 64 - addr := neg64_of_pos addr h1 haddr
    have hkne : 1 ≤ k := by
      by_contra hc
      have hk0 : k = 0 := by omega
      rw [hk0] at hbge
      simp [neg64] at hbge
    have hb : neg64 k = 2 ^ 64 - k := neg64_of_pos k hkne hklt
    have hge : neg64 addr ≤ k := by omega
    have hmin : ∀ kd ∈ bus.devices, neg64 addr ≤ kd.1 → k ≤ kd.1 := by
      intro kd hkd hkdge
      have hkdlt : kd.1 < 2 ^ 64 := hk kd hkd
      have hkd1 : 1 ≤ kd.1 := by omega
      have hbkd : neg64 kd.1 = 2 ^ 64 - kd.1 := neg64_of_pos kd.1 hkd1 hkdlt
      have := hmax kd hkd (by omega) (by omega)
      omega
    have hlb := lowerBound_eq bus.devices (neg64 addr) k d hs hmem hge hmin
    have hoff : sub64 addr (neg64 k) = addr - neg64 k := by
      unfold sub64
      rw [Nat.mod_eq_of_lt haddr, Nat.mod_eq_of_lt (neg64_lt k)]
      have h2 : addr + (2 ^ 64 - neg64 k) = 2 ^ 64 + (addr - neg64 k) := by
        have := neg64_lt k
        omega
      rw [h2, Nat.add_mod_left, Nat.mod_eq_of_lt (by omega)]
    constructor
    · simp [bus_t.load, hlb, hoff]
    · simp [bus_t.store, hlb, hoff]
  · have hall : ∀ kd ∈ bus.devices, kd.1 < neg64 addr := by
      intro kd hkd
      have hkdlt : kd.1 < 2 ^ 64 := hk kd hkd
      have ht : neg64 addr = 2 ^ 64 - addr := neg64_of_pos addr h1 haddr
      by_contra hc
      have hkdge : neg64 addr ≤ kd.1 := Nat.not_lt.mp hc
      have hkd1 : 1 ≤ kd.1 := by omega
      have hbkd : neg64 kd.1 = 2 ^ 64 - kd.1 := neg64_of_pos kd.1 hkd1 hkdlt
      exact hnone kd hkd ⟨by omega, by omega⟩
    have hlb := lowerBound_none bus.devices (neg64 addr) hall
    constructor
    · simp [bus_t.load, hlb]
    · simp [bus_t.store, hlb]
  · have hz : neg64 0 = 0 := rfl
    constructor
    · simp [bus_t.load, hdev, hz, lowerBound]
    · simp [bus_t.store, hdev, hz, lowerBound]
  · constructor
    · simp [bus_t.load, hdev, lowerBound]
    · simp [bus_t.store, hdev, lowerBound]

/-- A two-device bus: base 0x1000 holds `devA`, base 0x3000 holds `devB`;
the stored (negated) keys sort `devB` first. -/
def busW : bus_t :=
  bus_t.add_device (bus_t.add_device ⟨[]⟩ 0x1000 devA) 0x3000 devB

/-- Witness for the amended C10: at `addr = 0x3500` the dispatch picks base
0x3000 (the greatest base `≤ addr`), invoking `devB` at offset `0x500`; and
an empty bus refuses. -/
theorem C10_amended_witness :
    busW.devices = [(neg64 0x3000, devB), (neg64 0x1000, devA)] ∧
    bus_t.load busW 0x3500 4 = devB.dev_load (0x3500 - neg64 (neg64 0x3000)) 4 ∧
    bus_t.store busW 0x3500 4 = devB.dev_store (0x3500 - neg64 (neg64 0x3000)) 4 ∧
    bus_t.load ⟨[]⟩ 5 4 = false ∧ bus_t.store ⟨[]⟩ 5 4 = false := by
  have hdev : busW.devices = [(neg64 0x3000, devB), (neg64 0x1000, devA)] := rfl
  have hs : KeysSorted busW.devices := by
    rw [hdev]
    refine List.Pairwise.cons ?_ (List.Pairwise.cons (by simp) List.Pairwise.nil)
    intro kd hkd
    have : kd = (neg64 0x1000, devA) := by simpa using hkd
    rw [this]
    show neg64 0x3000 < neg64 0x1000
    decide
  have hk : ∀ kd ∈ busW.devices, kd.1 < 2 ^ 64 := by
    intro kd hkd
    rw [hdev] at hkd
    rcases List.mem_cons.mp hkd with h | h
    · rw [h]; exact neg64_lt _
    · have : kd = (neg64 0x1000, devA) := by simpa using h
      rw [this]; exact neg64_lt _
  have hmain := (C10_amended_bus_dispatch busW 0x3500 4 hs hk (by norm_num)).1
    (neg64 0x3000) devB (by rw [hdev]; exact List.mem_cons_self _ _)
    (by norm_num) (by decide) (by decide) ?_
  · refine ⟨hdev, hmain.1, hmain.2, ?_, ?_⟩
    · have := (C10_amended_bus_dispatch ⟨[]⟩ 5 4 List.Pairwise.nil
        (by intro kd hkd; cases hkd) (by norm_num)).2.2.2 rfl
      exact this.1
    · have := (C10_amended_bus_dispatch ⟨[]⟩ 5 4 List.Pairwise.nil
        (by intro kd hkd; cases hkd) (by norm_num)).2.2.2 rfl
      exact this.2
  · intro kd hkd
    rw [hdev] at hkd
    rcases List.mem_cons.mp hkd with h | h
    · rw [h]; intro _ _; exact le_refl _
    · have : kd = (neg64 0x1000, devA) := by simpa using h
      rw [this]; intro _ _; decide

end Spike
